import Mathlib

/-!
Shallow embedding of the reversion revision-capture engine
(src/reversion/revisions.py), of the diff helpers (src/reversion/managers.py)
and of the stored-version reconstruction (src/reversion/models.py).

Objects are identified by natural numbers (standing for Python object
identity).  Per-object mutable data (the `_reversion` meta record, primary
keys, the registry and relationship resolution) lives in a `World` record of
functions; the revision scope state mirrors `RevisionState`.  Python
exceptions are values of the `PyErr` type; functions that can raise return
`Except PyErr` results or carry an `Option PyErr` component.
-/

namespace Reversion

/-- Action constants imported from django.contrib.admin.models
(ADDITION = 1, CHANGE = 2, DELETION = 3). -/
def ADDITION : Nat := 1

def CHANGE : Nat := 2

def DELETION : Nat := 3

/-- Python exceptions raised by the modelled code.  `nameError` carries the
unbound name, `valueError` the message. -/
inductive PyErr where
  | nameError (name : String)
  | revisionManagementError
  | registrationError
  | valueError (msg : String)
  | assertionError
deriving DecidableEq, Repr

/-- Equality of raised-or-returned results is decidable. -/
instance instDecEqExcept {α : Type} [DecidableEq α] : DecidableEq (Except PyErr α) :=
  fun x y =>
    match x, y with
    | Except.ok a, Except.ok b =>
      match decEq a b with
      | isTrue h => isTrue (congrArg Except.ok h)
      | isFalse h => isFalse (fun hc => h (Except.ok.inj hc))
    | Except.error a, Except.error b =>
      match decEq a b with
      | isTrue h => isTrue (congrArg Except.error h)
      | isFalse h => isFalse (fun hc => h (Except.error.inj hc))
    | Except.ok _, Except.error _ => isFalse (fun hc => Except.noConfusion hc)
    | Except.error _, Except.ok _ => isFalse (fun hc => Except.noConfusion hc)

/-- Result of `getattr(obj, relationship, None)` when a declared relationship
is followed (revisions.py lines 287-308): a single model instance, a
Manager/QuerySet collection, None/absence, or an unexpected value (which the
source turns into a TypeError). -/
inductive RelVal where
  | one (obj : Nat)
  | many (objs : List Nat)
  | nothing
  | other
deriving DecidableEq

/-- `RegistrationInfo` (revisions.py lines 25-43): the registered field
whitelist, file fields, relationship follow list and serialization format of
one model class. -/
structure RegInfo where
  fields : List String
  file_fields : List String
  follow : List String
  format : String
deriving DecidableEq

/-- The environment a revision-manager call runs in: per-object data (primary
key `pk`, class `cls`, the `_reversion` meta fields `action`,
`serializedData`, `metaRepr`, and live `repr` as `objRepr`), per-class data
(registration flag, proxy flag, `RegInfo`, parent-link field names), dynamic
relationship resolution (`resolveRel`), and the external
`serializers.serialize` encoder (`serializeFn format objects fields`). -/
structure World where
  pk : Nat → Option Nat
  cls : Nat → Nat
  registered : Nat → Bool
  isProxy : Nat → Bool
  regInfo : Nat → RegInfo
  resolveRel : Nat → String → RelVal
  parents : Nat → List String
  action : Nat → Nat
  serializedData : Nat → String
  metaRepr : Nat → String
  objRepr : Nat → String
  serializeFn : String → List Nat → List String → String

/-- Body of the inner closure `_follow_relationships(obj, level)`
(revisions.py lines 261-314).  Its first statement evaluates
`obj in result_dict or obj.pk is None`; the enclosing function defines only
`result_set`, and no binding named `result_dict` exists in any enclosing
scope of the source, so the lookup of the free name `result_dict` raises
`NameError` before the object is added to the result set and before any
relationship is followed.  The first component is the list of objects the
call expanded, which is therefore always empty; the traversal code after the
failing lookup (lines 265-314) is unreachable. -/
def followRelAux (w : World) (obj : Nat) (level : Nat) : List Nat × Except PyErr Unit :=
  ([], Except.error (PyErr.nameError "result_dict"))

/-- `map(_follow_relationships, object_set)` (revisions.py line 315):
Python 2 `map` applies the function to each element in order and the first
raised exception propagates. -/
def followMap (w : World) : List Nat → List Nat × Except PyErr Unit
  | [] => ([], Except.ok ())
  | obj :: rest =>
    match followRelAux w obj 0 with
    | (exp, Except.error e) => (exp, Except.error e)
    | (exp, Except.ok _) =>
      let r := followMap w rest
      (exp ++ r.1, r.2)

/-- A Python set of objects, modelled as a list without duplicates; the list
order stands for the (unspecified) iteration order of the set. -/
abbrev PySet := List Nat

/-- `set.add`: appends the element unless already present. -/
def pinsert (s : PySet) (x : Nat) : PySet := if x ∈ s then s else s ++ [x]

/-- In-place set union `s |= t`. -/
def punion (s t : PySet) : PySet := t.foldl pinsert s

/-- Set difference `s - t` (also in-place `s -= t`). -/
def psdiff (s t : PySet) : PySet := s.filter (fun x => x ∉ t)

/-- `set.discard`: removes the element if present. -/
def pdiscard (s : PySet) (x : Nat) : PySet := s.filter (fun y => y ≠ x)

/-- `RevisionManager.follow_relationships` (revisions.py lines 253-316).
Returns the list of objects that were expanded during the call together with
either the final `result_set` or the exception that escaped.  Because the
inner closure raises `NameError` on entry (see `followRelAux`), a nonempty
`object_set` always yields the error and an empty `result_set` is returned
only for an empty input. -/
def follow_relationships (w : World) (object_set : List Nat)
    (max_recursion : Option Nat) (inclusive : Bool) (ancestors : Bool) :
    List Nat × Except PyErr PySet :=
  match followMap w object_set with
  | (exp, Except.error e) => (exp, Except.error e)
  | (exp, Except.ok _) => (exp, Except.ok [])

/-- `RevisionState` (revisions.py lines 46-62): the thread-local scope state.
The nesting `depth` is a Python integer, hence `Int`. -/
structure RevisionState where
  objects : PySet
  dead_objects : PySet
  user : Option Nat
  comment : String
  depth : Int
  is_invalid : Bool
  meta : List (Nat × String)
deriving DecidableEq

/-- `RevisionState.clear` (revisions.py lines 54-62): the default state that
`__init__` sets up and that `end` restores. -/
def clearedState : RevisionState :=
  { objects := [], dead_objects := [], user := Option.none, comment := "",
    depth := 0, is_invalid := false, meta := [] }

/-- `RevisionManager.is_active` (revisions.py lines 185-187). -/
def is_active (st : RevisionState) : Bool := st.depth > 0

/-- `RevisionManager.add` (revisions.py lines 195-209).  `assert_active`
raises `RevisionManagementError` outside a scope.  For a DELETION-tagged
object, the depth-1 non-inclusive neighbourhood is computed first, the object
is moved to the dead set, the neighbours not themselves dead join the live
set and the object itself is discarded from the live set; otherwise the
object joins the live set. -/
def add (w : World) (st : RevisionState) (obj : Nat) : Except PyErr RevisionState :=
  if is_active st then
    if w.action obj = DELETION then
      match (follow_relationships w [obj] (Option.some 1) false false).2 with
      | Except.error e => Except.error e
      | Except.ok neighbours =>
        let dead := pinsert st.dead_objects obj
        Except.ok { st with
          dead_objects := dead,
          objects := pdiscard (punion st.objects (psdiff neighbours dead)) obj }
    else
      Except.ok { st with objects := pinsert st.objects obj }
  else Except.error PyErr.revisionManagementError

/-- `RevisionManager.set_user` (revisions.py lines 211-214). -/
def set_user (st : RevisionState) (user : Nat) : Except PyErr RevisionState :=
  if is_active st then Except.ok { st with user := Option.some user }
  else Except.error PyErr.revisionManagementError

/-- `RevisionManager.set_comment` (revisions.py lines 225-228). -/
def set_comment (st : RevisionState) (comment : String) : Except PyErr RevisionState :=
  if is_active st then Except.ok { st with comment := comment }
  else Except.error PyErr.revisionManagementError

/-- `RevisionManager.add_meta` (revisions.py lines 239-242). -/
def add_meta (st : RevisionState) (m : Nat × String) : Except PyErr RevisionState :=
  if is_active st then Except.ok { st with meta := st.meta ++ [m] }
  else Except.error PyErr.revisionManagementError

/-- `RevisionManager.invalidate` (revisions.py lines 244-247). -/
def invalidate (st : RevisionState) : Except PyErr RevisionState :=
  if is_active st then Except.ok { st with is_invalid := true }
  else Except.error PyErr.revisionManagementError

/-- A `Revision` row created by `Revision.objects.create` (revisions.py
lines 330-331). -/
structure RevRec where
  user : Option Nat
  comment : String
deriving DecidableEq

/-- A `Version` row created by `Version.objects.create` (revisions.py
lines 361-367 and 379-385). -/
structure VerRec where
  object_id : Option Nat
  content_type : Nat
  format : String
  serialized_data : String
  object_repr : String
  action_flag : Nat
deriving DecidableEq

/-- Everything the commit persists: revision rows, version rows, and the
meta rows attached to the revision. -/
structure CommitLog where
  revisions : List RevRec
  versions : List VerRec
  metas : List (Nat × String)
deriving DecidableEq

/-- The empty persistence log. -/
def emptyLog : CommitLog := ⟨[], [], []⟩

/-- `RevisionManager.get_registration_info` (revisions.py lines 148-156):
raises `RegistrationError` for an unregistered class. -/
def get_registration_info (w : World) (c : Nat) : Except PyErr RegInfo :=
  if w.registered c then Except.ok (w.regInfo c) else Except.error PyErr.registrationError

/-- The live-object version loop of `RevisionManager.end` (revisions.py
lines 342-367).  Processes the reconciled revision set in iteration order:
proxy instances are skipped; the action is read, the registration info is
looked up (RegistrationError if missing); a DELETION action raises
`ValueError("BUG: ...")` before any Version for that object is written;
otherwise the ancestor closure of the single object is computed
(`follow_relationships([obj], ancestors=True)`, which raises `NameError`
for the one-element input, see `followRelAux`), serialized, and the Version
row is created.  Returns the rows written before any exception plus the
exception, if one was raised. -/
def saveLiveVersions (w : World) : List Nat → List VerRec × Option PyErr
  | [] => ([], Option.none)
  | obj :: rest =>
    if w.isProxy (w.cls obj) then saveLiveVersions w rest
    else
      let action := w.action obj
      match get_registration_info w (w.cls obj) with
      | Except.error e => ([], Option.some e)
      | Except.ok registration_info =>
        if action = DELETION then
          ([], Option.some (PyErr.valueError
            ("BUG: there is a dead model among live ones. " ++ w.objRepr obj)))
        else
          match (follow_relationships w [obj] Option.none true true).2 with
          | Except.error e => ([], Option.some e)
          | Except.ok ancestors_and_self =>
            let ver : VerRec :=
              { object_id := w.pk obj, content_type := w.cls obj,
                format := registration_info.format,
                serialized_data := w.serializeFn registration_info.format
                  ancestors_and_self registration_info.fields,
                object_repr := w.objRepr obj, action_flag := action }
            let r := saveLiveVersions w rest
            (ver :: r.1, r.2)

/-- The dead-object version loop of `RevisionManager.end` (revisions.py
lines 369-385): for each dead object the action is asserted to be DELETION,
the registration info is looked up, and the Version row is written from the
frozen `_reversion.serialized_data` and `_reversion.repr` fields. -/
def saveDeadVersions (w : World) : List Nat → List VerRec × Option PyErr
  | [] => ([], Option.none)
  | obj :: rest =>
    let action := w.action obj
    if action ≠ DELETION then ([], Option.some PyErr.assertionError)
    else
      match get_registration_info w (w.cls obj) with
      | Except.error e => ([], Option.some e)
      | Except.ok registration_info =>
        let ver : VerRec :=
          { object_id := w.pk obj, content_type := w.cls obj,
            format := registration_info.format,
            serialized_data := w.serializedData obj,
            object_repr := w.metaRepr obj, action_flag := action }
        let r := saveDeadVersions w rest
        (ver :: r.1, r.2)

/-- The `try` body of `RevisionManager.end` at depth 0 (revisions.py
lines 327-388), taking the state after `models -= dead_models` (so
`st.objects = models`).  If there is a dead or live object and the scope is
valid, the Revision row is created first, then
`follow_relationships(self._state.objects)` runs (raising `NameError` for a
nonempty live set), then the reconciled set `models | (revision_set -
models)` is written by `saveLiveVersions`, the dead set by
`saveDeadVersions`, and finally the meta rows.  Each component returns what
was persisted before any exception. -/
def commitBody (w : World) (st : RevisionState) (models : PySet) :
    CommitLog × Option PyErr :=
  if (st.dead_objects ≠ [] ∨ models ≠ []) ∧ st.is_invalid = false then
    let rev : RevRec := { user := st.user, comment := st.comment }
    match (follow_relationships w st.objects Option.none true false).2 with
    | Except.error e => (⟨[rev], [], []⟩, Option.some e)
    | Except.ok revision_set =>
      let diff := psdiff revision_set models
      let revision_set := punion models diff
      let live := saveLiveVersions w revision_set
      match live.2 with
      | Option.some e => (⟨[rev], live.1, []⟩, Option.some e)
      | Option.none =>
        let dead := saveDeadVersions w st.dead_objects
        match dead.2 with
        | Option.some e => (⟨[rev], live.1 ++ dead.1, []⟩, Option.some e)
        | Option.none => (⟨[rev], live.1 ++ dead.1, st.meta⟩, Option.none)
  else (emptyLog, Option.none)

/-- `RevisionManager.end` (revisions.py lines 318-390).  `assert_active`
raises `RevisionManagementError` when the depth is not positive, before the
depth is decremented and before any commit work.  Otherwise the depth is
decremented; at depth 0 the live set is reduced by the dead set (the source
mutates `self._state.objects` in place via `models -= dead_models`), the
commit body runs, and the `finally` clause restores `clearedState` whether or
not an exception was raised.  Returns the state afterwards, what was
persisted, and the exception that escaped, if any. -/
def end_ (w : World) (st : RevisionState) : RevisionState × CommitLog × Option PyErr :=
  if is_active st then
    if st.depth - 1 = 0 then
      (clearedState,
        commitBody w
          { st with depth := st.depth - 1,
                    objects := psdiff st.objects st.dead_objects }
          (psdiff st.objects st.dead_objects))
    else ({ st with depth := st.depth - 1 }, emptyLog, Option.none)
  else (st, emptyLog, Option.some PyErr.revisionManagementError)

/-- The second (binding) definition of `RevisionManager.pre_delete_receiver`
(revisions.py lines 418-434; the first definition at lines 413-416 is
shadowed by it).  Sets the instance action to DELETION, makes the shallow
copy `tmp` (which shares the `_reversion` record with the instance), and then
calls `follow_relationships([instance], ancestors=True)` — which raises
`NameError` (see `followRelAux`) before the registration lookup, before the
frozen payload (`_reversion.serialized_data`) or the frozen repr
(`_reversion.repr`) is stored, and before `add` runs.  Returns the updated
world, the updated scope state, and the escaping exception, if any. -/
def pre_delete_receiver (w : World) (st : RevisionState) (inst : Nat) :
    World × RevisionState × Option PyErr :=
  let w1 := { w with action := fun o => if o = inst then DELETION else w.action o }
  match (follow_relationships w1 [inst] Option.none true true).2 with
  | Except.error e => (w1, st, Option.some e)
  | Except.ok ancestors_and_self =>
    match get_registration_info w1 (w1.cls inst) with
    | Except.error e => (w1, st, Option.some e)
    | Except.ok registration_info =>
      let w2 := { w1 with
        serializedData := fun o => if o = inst then
            w1.serializeFn registration_info.format ancestors_and_self
              registration_info.fields
          else w1.serializedData o,
        metaRepr := fun o => if o = inst then w1.objRepr inst else w1.metaRepr o }
      if is_active st then
        match add w2 st inst with
        | Except.error e => (w2, st, Option.some e)
        | Except.ok st2 => (w2, st2, Option.none)
      else (w2, st, Option.none)

/-- The scope-lifecycle operations a caller can issue on the shared
`RevisionManager` (start/end/add/set_user/set_comment/add_meta/invalidate,
revisions.py lines 175-247 and 318-390). -/
inductive Op where
  | start
  | end_
  | add (obj : Nat)
  | setUser (user : Nat)
  | setComment (comment : String)
  | addMeta (m : Nat × String)
  | invalidate
deriving DecidableEq

/-- One API call against the scope state.  Exceptions propagate to the
caller, who may keep issuing calls against the state left behind; an
operation that raises before mutating leaves the state unchanged. -/
def step (w : World) (st : RevisionState) : Op → RevisionState
  | Op.start => { st with depth := st.depth + 1 }
  | Op.end_ => (end_ w st).1
  | Op.add obj => ((add w st obj).toOption).getD st
  | Op.setUser u => ((set_user st u).toOption).getD st
  | Op.setComment c => ((set_comment st c).toOption).getD st
  | Op.addMeta m => ((add_meta st m).toOption).getD st
  | Op.invalidate => ((invalidate st).toOption).getD st

/-- Running a sequence of API calls from the initial (cleared) state. -/
def run (w : World) (ops : List Op) : RevisionState :=
  ops.foldl (step w) clearedState

/-- A Python field value as it appears in `diff_vers` (managers.py lines
21-66): None, an integer (also the raw pk of a reference field), a string, a
datetime (epoch second plus microsecond), or the materialized id set of a
many-to-many field. -/
inductive Val where
  | none
  | int (n : Int)
  | str (s : String)
  | dt (sec : Int) (usec : Nat)
  | coll (objs : List Nat)
deriving DecidableEq

/-- Python truthiness of the modelled values (None, 0, the empty string and
an empty collection are falsy; datetimes are truthy). -/
def truthy : Val → Bool
  | Val.none => false
  | Val.int n => decide (n ≠ 0)
  | Val.str s => decide (s ≠ "")
  | Val.dt _ _ => true
  | Val.coll objs => decide (objs ≠ [])

/-- The datetime guard of `diff_vers` (managers.py lines 64-66): both values
are datetimes and `strftime` with the `%s` format agrees on them, i.e. the
epoch seconds are equal
(microseconds are ignored). -/
def dtSameSec : Val → Val → Bool
  | Val.dt s1 _, Val.dt s2 _ => decide (s1 = s2)
  | _, _ => false

/-- Whether a value is a materialized many-to-many collection. -/
def isColl : Val → Bool
  | Val.coll _ => true
  | _ => false

/-- The Python 2 equality used by `new_value != old_value` (managers.py line
61).  For a many-to-many field both values have been replaced by freshly
constructed, distinct `QuerySet` instances (lines 38-39 and 52-53);
`QuerySet` defines no `__eq__`, so Python 2 falls back to identity
comparison and two collection values are never equal — even when the
referenced id sets coincide.  Every other modelled value compares by
value. -/
def pyEq : Val → Val → Bool
  | Val.coll _, Val.coll _ => false
  | a, b => decide (a = b)

/-- One registered field of the diffed object as `diff_vers` sees it: its
name, its `primary_key` flag, and the values extracted from the two object
versions (after the `getattr`/choices/m2m extraction of managers.py lines
29-57; `oldVal` is only consulted when a second version is given). -/
structure FieldSpec where
  name : String
  primary_key : Bool
  newVal : Val
  oldVal : Val
deriving DecidableEq

/-- The per-field decision of `diff_vers` (managers.py lines 26-27 and
61-66): primary-key fields are skipped; a field enters the result when the
version is a CHANGE with values unequal under Python comparison (`pyEq`:
identity, hence always unequal, for two many-to-many QuerySets; by value
otherwise) at least one of which is truthy, or when the version is an
ADDITION or a DELETION — unless both values are datetimes equal at
whole-second precision, in which case the `continue` at line 66 skips the
field. -/
def fieldReported (action : Nat) (v2present : Bool) (f : FieldSpec) : Bool :=
  let new_value := f.newVal
  let old_value := if v2present then f.oldVal else Val.none
  if f.primary_key then false
  else if (action = CHANGE ∧ (truthy new_value ∨ truthy old_value) ∧
            pyEq new_value old_value = false) ∨
          action = ADDITION ∨ action = DELETION then
    if dtSameSec new_value old_value then false else true
  else false

/-- `diff_vers(v1, v2)` (managers.py lines 9-85) restricted to the reported
field list: `action` is the action flag of `v1`, `v2present` tells whether a
previous version was supplied (otherwise `old_value = None`, line 57), and
each registered field contributes the tuple `(name, new, old)` when
`fieldReported` accepts it.  The value rewrites of lines 68-81 (choices
display, FK-to-User dereference, FK repr resolution from the same revision)
replace the appended values but never change whether a field is appended, so
they are not modelled. -/
def diff_vers (action : Nat) (v2present : Bool) (fields : List FieldSpec) :
    List (String × Val × Val) :=
  fields.filterMap (fun f =>
    if fieldReported action v2present f then
      Option.some (f.name, f.newVal, if v2present then f.oldVal else Val.none)
    else Option.none)

/-- A `Version` row as the batch differ reads it back (managers.py lines
267-302): the target object id, the content type id and the action flag. -/
structure VRec where
  object_id : Nat
  content_type_id : Nat
  action_flag : Nat
deriving DecidableEq

/-- `get_action_flag_display` over the ACTIONS choices (models.py lines
13-17). -/
def actionDisplay (a : Nat) : String :=
  if a = ADDITION then "Add"
  else if a = CHANGE then "Change"
  else if a = DELETION then "Delete"
  else ""

/-- The previous-version resolution of `VersionManager.diff` for the entry
`v` at index `i` of the globally ordered, limit-bounded `versions_list`
(managers.py lines 284-300): `prev_ver` starts as None and `_type` as the
action display; only for a CHANGE-flagged version is `versions_list[i + 1]`
consulted — if it exists but belongs to a different object id or content
type, `prev_ver` is reset to None and the type is reclassified as
"Add or Change"; if the index is out of range the IndexError is swallowed.
Returns the `prev_ver` passed to `diff_vers` and the `_type` string. -/
def resolve_prev (versions_list : List VRec) (v : VRec) (i : Nat) :
    Option VRec × String :=
  if v.action_flag = CHANGE then
    match versions_list[i + 1]? with
    | Option.some prev_ver =>
      if v.object_id ≠ prev_ver.object_id ∨
          v.content_type_id ≠ prev_ver.content_type_id then
        (Option.none, "Add or Change")
      else (Option.some prev_ver, actionDisplay v.action_flag)
    | Option.none => (Option.none, actionDisplay v.action_flag)
  else (Option.none, actionDisplay v.action_flag)

/-- One deserialized per-ancestor fragment of a stored payload (models.py
lines 102-107): the number of parent links of its model class
(`len(obj._meta.parents.keys())`) and its `__dict__` of field values,
modelled as an association list with unique keys. -/
structure Frag where
  nparents : Nat
  fields : List (String × Int)
deriving DecidableEq

/-- Overwrite-or-append of one key in a Python `__dict__`. -/
def dset : List (String × Int) → String → Int → List (String × Int)
  | [], k, v => [(k, v)]
  | (k1, v1) :: rest, k, v =>
    if k1 = k then (k1, v) :: rest else (k1, v1) :: dset rest k v

/-- `head.object.__dict__.update(dobj.object.__dict__)` (models.py line 112):
every binding of `upd` is written into `d`, later writes winning. -/
def dictUpdate (d : List (String × Int)) (upd : List (String × Int)) :
    List (String × Int) :=
  upd.foldl (fun acc kv => dset acc kv.1 kv.2) d

/-- Stable insertion into a list already sorted by descending `nparents`:
the new fragment goes after every fragment with at least as many parents. -/
def insertDesc (f : Frag) : List Frag → List Frag
  | [] => [f]
  | g :: gs => if f.nparents ≤ g.nparents then g :: insertDesc f gs else f :: g :: gs

/-- `do.sort(lambda x,y: cmp(len(y.object._meta.parents.keys()),
len(x.object._meta.parents.keys())))` (models.py lines 106-107): a stable
sort by descending parent count, so the most derived fragment comes first. -/
def sortByParentsDesc (l : List Frag) : List Frag :=
  l.foldl (fun acc f => insertDesc f acc) []

/-- `Version.get_object_version` (models.py lines 92-114): the fragments are
sorted by descending parent count, the head (the most derived fragment)
becomes the base object, and the `__dict__` of every remaining fragment is
applied to it in order with `update`.  An empty payload raises (IndexError at
`do[0]`), modelled as `Option.none`. -/
def get_object_version (frags : List Frag) : Option Frag :=
  match sortByParentsDesc frags with
  | [] => Option.none
  | head :: rest =>
    Option.some { head with
      fields := rest.foldl (fun d g => dictUpdate d g.fields) head.fields }

/-- Lookup of a field name in a `__dict__` association list. -/
def dlookup : List (String × Int) → String → Option Int
  | [], _ => Option.none
  | (k1, v) :: rest, k => if k1 = k then Option.some v else dlookup rest k

/-- Field lookup on the object reconstructed by `get_object_version`. -/
def mergedLookup (frags : List Frag) (k : String) : Option Int :=
  match get_object_version frags with
  | Option.some f => dlookup f.fields k
  | Option.none => Option.none

/-- A concrete world for evaluating the model: class 10 is registered and not
a proxy, class 11 is a proxy class (object 20 has it); objects 1 and 2 are
linked by a relationship cycle 1 -> 2 -> 1 through the declared follow name
"peer"; object 4 is tagged for deletion, every other object is tagged
changed. -/
def wTest : World :=
  { pk := fun o => Option.some o,
    cls := fun o => if o = 20 then 11 else 10,
    registered := fun _ => true,
    isProxy := fun c => c = 11,
    regInfo := fun _ =>
      { fields := ["name"], file_fields := [], follow := ["peer"],
        format := "python" },
    resolveRel := fun o r =>
      if r = "peer" then
        if o = 1 then RelVal.one 2
        else if o = 2 then RelVal.one 1
        else RelVal.nothing
      else RelVal.nothing,
    parents := fun _ => [],
    action := fun o => if o = 4 then DELETION else CHANGE,
    serializedData := fun _ => "",
    metaRepr := fun _ => "",
    objRepr := fun _ => "obj",
    serializeFn := fun _ _ _ => "payload" }

/-- A scope state one `start()` deep with one live changed object (object 1),
as produced by `start(); add(obj1)`. -/
def c1State : RevisionState := { clearedState with depth := 1, objects := [1] }

/-- A scope state one `start()` deep with nothing recorded yet. -/
def activeEmptyState : RevisionState := { clearedState with depth := 1 }

/-- An invalidated scope state with changed objects recorded. -/
def invalidState : RevisionState :=
  { clearedState with depth := 1, objects := [5], is_invalid := true }

/-- Fragments of one composite entity: the child-table fragment (one parent
link) carries x = 1, the parent-table fragment carries x = 2. -/
def c8Frags : List Frag := [⟨1, [("x", 1)]⟩, ⟨0, [("x", 2)]⟩]

/-- A non-key registered field named "a" whose value changed from 2 to 1. -/
def c6Field : FieldSpec := ⟨"a", false, Val.int 1, Val.int 2⟩

/-- A one-field registered field list for evaluating `diff_vers`. -/
def c6Fields : List FieldSpec := [c6Field]

/-- A non-key many-to-many field whose materialized id set is the same
(nonempty) set in both versions: the new and old values are two distinct
QuerySet instances over equal id sets. -/
def c6CollField : FieldSpec := ⟨"tags", false, Val.coll [1], Val.coll [1]⟩

/-- Two adjacent Version rows of the globally ordered batch-diff result that
belong to different logical objects (object ids 1 and 2), the first one
flagged CHANGE. -/
def c7List : List VRec := [⟨1, 10, 2⟩, ⟨2, 10, 2⟩]

/-- C1: the claim states that a persisted Revision always contains at least
one Version.  Committing a scope that holds one live changed object (state
`c1State`, reached by `start(); add(obj1)`) creates the Revision row first
(revisions.py line 330), then calls `follow_relationships` on the nonempty
live set, which raises `NameError` for the unbound name `result_dict` before
any Version row is written: the Revision is persisted with zero Versions and
the exception escapes. -/
theorem c1_empty_revision_persisted :
    end_ wTest c1State =
      (clearedState,
        ⟨[{ user := Option.none, comment := "" }], [], []⟩,
        Option.some (PyErr.nameError "result_dict")) := by decide

/-- C2: the claim states that deleting an object inside a scope freezes its
payload before the delete and persists a Deletion Version from it.  The
binding `pre_delete_receiver` sets the action to DELETION but then raises
`NameError` (unbound `result_dict` inside `follow_relationships`) before the
frozen payload is stored (`serializedData` stays empty) and before the
object is added to the scope (the scope state is unchanged), so no Deletion
Version can ever be persisted. -/
theorem c2_pre_delete_freeze_fails :
    (pre_delete_receiver wTest activeEmptyState 7).2 =
        (activeEmptyState, Option.some (PyErr.nameError "result_dict")) ∧
      (pre_delete_receiver wTest activeEmptyState 7).1.action 7 = DELETION ∧
      (pre_delete_receiver wTest activeEmptyState 7).1.serializedData 7 = "" := by
  decide

/-- C3 counterexample: the claim states that on a relationship graph with the
cycle 1 -> 2 -> 1 (declared in `wTest` through the follow name "peer"),
`follow_relationships` terminates and visits each reachable object exactly
once.  On the concrete input `[1]` the call instead raises `NameError` for
the unbound name `result_dict` with an empty expansion log: the reachable
objects 1 and 2 are visited zero times, not once. -/
theorem c3_cycle_counterexample :
    follow_relationships wTest [1] Option.none true false =
      ([], Except.error (PyErr.nameError "result_dict")) ∧
    wTest.resolveRel 1 "peer" = RelVal.one 2 ∧
    wTest.resolveRel 2 "peer" = RelVal.one 1 := by decide

/-- C4: the claim states that `add` on a DELETION-tagged object moves it to
the dead set and registers its live neighbours.  On the concrete
DELETION-tagged object 4 inside an active scope, `add` instead raises the
`NameError` coming from `follow_relationships` (unbound name `result_dict`)
before the dead set or the live set is touched. -/
theorem c4_add_deletion_raises :
    add wTest activeEmptyState 4 = Except.error (PyErr.nameError "result_dict") := by
  decide

/-- C8 counterexample: the claim states that on conflicting field names the
more-derived fragment wins, which on `c8Frags` would give x = 1 (the
child-table value).  The code sorts the fragments most-derived first, takes
the most-derived fragment as the base and applies the remaining (less
derived) fragments with `__dict__.update`, so the parent-table value x = 2
wins. -/
theorem c8_parent_wins_counterexample :
    mergedLookup c8Frags "x" = Option.some 2 ∧ (2 : Int) ≠ 1 := by decide

/-- C3 amended: on every nonempty input set and for every setting of
`max_recursion`, `inclusive` and `ancestors`, `follow_relationships` raises
`NameError` for the unbound name `result_dict` before expanding any object
(the expansion log is empty): it terminates by raising and visits no object,
so in particular no object is ever expanded twice. -/
theorem c3_follow_raises (w : World) (object_set : List Nat)
    (max_recursion : Option Nat) (inclusive ancestors : Bool)
    (h : object_set ≠ []) :
    follow_relationships w object_set max_recursion inclusive ancestors =
      ([], Except.error (PyErr.nameError "result_dict")) := by
  cases object_set with
  | nil => exact absurd rfl h
  | cons o rest => rfl

/-- Witness for `c3_follow_raises` at the concrete input `[1]` with a depth
bound of 2, non-inclusive, relationship mode. -/
theorem c3_follow_raises_witness :
    ([1] : List Nat) ≠ [] ∧
      follow_relationships wTest [1] (Option.some 2) false false =
        ([], Except.error (PyErr.nameError "result_dict")) :=
  ⟨by decide, c3_follow_raises wTest [1] (Option.some 2) false false (by decide)⟩

/-- C9: at the outermost `end()` (depth 1), an invalidated scope, or a scope
with neither changed nor dead objects, creates no Revision row and no Version
row, and no exception is raised; the state is cleared. -/
theorem c9_no_commit_when_invalid_or_empty (w : World) (st : RevisionState)
    (hd : st.depth = 1)
    (h : st.is_invalid = true ∨ (st.objects = [] ∧ st.dead_objects = [])) :
    end_ w st = (clearedState, emptyLog, Option.none) := by
  have hact : is_active st = true := by simp [is_active, hd]
  rcases h with hinv | ⟨ho, hdead⟩
  · simp [end_, hact, hd, commitBody, hinv, emptyLog]
  · simp [end_, hact, hd, commitBody, ho, hdead, psdiff, emptyLog]

/-- Witness for `c9_no_commit_when_invalid_or_empty`: an invalidated scope
with a changed object commits nothing and raises nothing. -/
theorem c9_no_commit_witness :
    end_ wTest invalidState = (clearedState, emptyLog, Option.none) :=
  c9_no_commit_when_invalid_or_empty wTest invalidState rfl (Or.inl rfl)

/-- C5: in the live-object version loop of the commit, a DELETION-tagged,
non-proxy, registered object (preceded only by proxy instances, which the
loop skips) makes the loop raise the `ValueError("BUG: ...")` with no Version
row written — in particular no Version for that object is written from live
data, and the exception aborts the commit. -/
theorem c5_deletion_in_live_path_fatal (w : World) (pre post : List Nat) (o : Nat)
    (hpre : ∀ x ∈ pre, w.isProxy (w.cls x) = true)
    (hproxy : w.isProxy (w.cls o) = false)
    (hreg : w.registered (w.cls o) = true)
    (hdel : w.action o = DELETION) :
    saveLiveVersions w (pre ++ o :: post) =
      ([], Option.some (PyErr.valueError
        ("BUG: there is a dead model among live ones. " ++ w.objRepr o))) := by
  induction pre with
  | nil =>
    show saveLiveVersions w (o :: post) = _
    simp [saveLiveVersions, hproxy, get_registration_info, hreg, hdel]
  | cons x xs ih =>
    have hx : w.isProxy (w.cls x) = true := hpre x (List.mem_cons_self x xs)
    have hxs : ∀ y ∈ xs, w.isProxy (w.cls y) = true := fun y hy =>
      hpre y (List.mem_cons_of_mem x hy)
    simp only [List.cons_append, saveLiveVersions, hx, if_true]
    exact ih hxs

/-- Witness for `c5_deletion_in_live_path_fatal`: a proxy instance (object
20) followed by the DELETION-tagged object 4. -/
theorem c5_deletion_witness :
    ((∀ x ∈ ([20] : List Nat), wTest.isProxy (wTest.cls x) = true) ∧
      wTest.isProxy (wTest.cls 4) = false ∧
      wTest.registered (wTest.cls 4) = true ∧
      wTest.action 4 = DELETION) ∧
    saveLiveVersions wTest ([20] ++ 4 :: []) =
      ([], Option.some (PyErr.valueError
        ("BUG: there is a dead model among live ones. " ++ wTest.objRepr 4))) :=
  ⟨⟨by decide, by decide, by decide, by decide⟩,
    c5_deletion_in_live_path_fatal wTest [20] [] 4 (by decide) (by decide)
      (by decide) (by decide)⟩

/-- Membership of a field name in the reported list of `diff_vers`. -/
theorem mem_diff_vers_names (action : Nat) (v2p : Bool) (fields : List FieldSpec)
    (s : String) :
    s ∈ (diff_vers action v2p fields).map (fun r => r.1) ↔
      ∃ g ∈ fields, fieldReported action v2p g = true ∧ g.name = s := by
  simp only [diff_vers, List.map_filterMap, List.mem_filterMap]
  constructor
  · rintro ⟨g, hg, hsome⟩
    by_cases hr : fieldReported action v2p g
    · refine ⟨g, hg, hr, ?_⟩
      simp only [hr, if_true, Option.map_some] at hsome
      exact Option.some.inj hsome
    · simp [hr] at hsome
  · rintro ⟨g, hg, hr, hname⟩
    exact ⟨g, hg, by simp [hr, hname]⟩

/-- C6 counterexample: the claim states a field is reported under a Change
action only if its new and old values differ.  The many-to-many field
`c6CollField` materializes equal (nonempty) id sets in both versions, yet
`diff_vers` reports it: the code compares the two freshly built QuerySet
instances by identity (managers.py lines 38-39, 52-53 and 61), which are
never equal. -/
theorem c6_m2m_reported_unchanged_counterexample :
    c6CollField.name ∈ (diff_vers CHANGE true [c6CollField]).map (fun r => r.1) ∧
      c6CollField.newVal = c6CollField.oldVal ∧
      c6CollField.primary_key = false ∧
      truthy c6CollField.newVal = true ∧
      CHANGE ≠ ADDITION ∧ CHANGE ≠ DELETION := by decide

/-- Python inequality at managers.py line 61, spelled structurally: two
values are unequal exactly when they differ by value or are both
many-to-many collections (distinct QuerySet instances, identity
comparison). -/
theorem pyEq_eq_false_iff (a b : Val) :
    pyEq a b = false ↔ (a ≠ b ∨ (isColl a = true ∧ isColl b = true)) := by
  cases a <;> cases b <;> simp [pyEq, isColl]

/-- The per-field condition of `diff_vers`, rewritten as the amended claim
states it: reported iff (Addition or Deletion, or a Change, with at least one
value truthy, whose values differ by value or are both many-to-many
collections) and not two datetimes equal at whole-second precision. -/
theorem fieldReported_iff_claim (action : Nat) (v2p : Bool) (f : FieldSpec)
    (hpk : f.primary_key = false) :
    fieldReported action v2p f = true ↔
      (((action = ADDITION ∨ action = DELETION) ∨
        (action = CHANGE ∧
          (truthy f.newVal = true ∨
            truthy (if v2p then f.oldVal else Val.none) = true) ∧
          (f.newVal ≠ (if v2p then f.oldVal else Val.none) ∨
            (isColl f.newVal = true ∧
              isColl (if v2p then f.oldVal else Val.none) = true)))) ∧
        dtSameSec f.newVal (if v2p then f.oldVal else Val.none) = false) := by
  rw [← pyEq_eq_false_iff f.newVal (if v2p then f.oldVal else Val.none)]
  simp only [fieldReported, hpk, Bool.false_eq_true, if_false]
  by_cases h1 : (action = CHANGE ∧
      (truthy f.newVal = true ∨
        truthy (if v2p then f.oldVal else Val.none) = true) ∧
      pyEq f.newVal (if v2p then f.oldVal else Val.none) = false) ∨
      action = ADDITION ∨ action = DELETION
  · by_cases h2 : dtSameSec f.newVal (if v2p then f.oldVal else Val.none) = true
    · simp [h1, h2]
    · simp [h1, h2]
      tauto
  · simp [h1]
    tauto

/-- C6 amended: `diff_vers` reports a non-key registered field as changed if
and only if the version action is Addition or Deletion, or it is a Change
with at least one of the new and old values non-empty (truthy) whose values
differ — where two many-to-many values, being two distinct QuerySet
instances compared by identity, always count as differing even when their id
sets are equal — except that two datetimes equal at whole-second precision
are never reported (the microsecond-stripping `continue`), the exception
applying to every action. -/
theorem c6_field_reported_iff (action : Nat) (v2present : Bool)
    (fields : List FieldSpec) (f : FieldSpec)
    (hmem : f ∈ fields) (hpk : f.primary_key = false)
    (hnd : (fields.map FieldSpec.name).Nodup) :
    f.name ∈ (diff_vers action v2present fields).map (fun r => r.1) ↔
      (((action = ADDITION ∨ action = DELETION) ∨
        (action = CHANGE ∧
          (truthy f.newVal = true ∨
            truthy (if v2present then f.oldVal else Val.none) = true) ∧
          (f.newVal ≠ (if v2present then f.oldVal else Val.none) ∨
            (isColl f.newVal = true ∧
              isColl (if v2present then f.oldVal else Val.none) = true)))) ∧
        dtSameSec f.newVal (if v2present then f.oldVal else Val.none) = false) := by
  rw [mem_diff_vers_names]
  constructor
  · rintro ⟨g, hg, hr, hname⟩
    have hgf : g = f := List.inj_on_of_nodup_map hnd hg hmem hname
    subst hgf
    exact (fieldReported_iff_claim action v2present g hpk).mp hr
  · intro hclaim
    exact ⟨f, hmem, (fieldReported_iff_claim action v2present f hpk).mpr hclaim, rfl⟩

/-- Witness for `c6_field_reported_iff`: a CHANGE of field "a" from 2 to 1
with a previous version supplied. -/
theorem c6_field_reported_witness :
    (c6Field ∈ c6Fields ∧ c6Field.primary_key = false ∧
      (c6Fields.map FieldSpec.name).Nodup) ∧
    (c6Field.name ∈ (diff_vers CHANGE true c6Fields).map (fun r => r.1) ↔
      (((CHANGE = ADDITION ∨ CHANGE = DELETION) ∨
        (CHANGE = CHANGE ∧
          (truthy c6Field.newVal = true ∨
            truthy (if true then c6Field.oldVal else Val.none) = true) ∧
          (c6Field.newVal ≠ (if true then c6Field.oldVal else Val.none) ∨
            (isColl c6Field.newVal = true ∧
              isColl (if true then c6Field.oldVal else Val.none) = true)))) ∧
        dtSameSec c6Field.newVal (if true then c6Field.oldVal else Val.none) = false)) :=
  ⟨⟨by decide, by decide, by decide⟩,
    c6_field_reported_iff CHANGE true c6Fields c6Field (by decide) (by decide)
      (by decide)⟩

/-- C7: in the batch differ, a CHANGE-flagged version whose adjacent entry in
the globally ordered, limit-bounded list belongs to a different logical
object (different object id or content type) is compared against no previous
version (`prev_ver = None` is passed to `diff_vers`) and is reclassified as
the ambiguous "Add or Change" type. -/
theorem c7_adjacent_different_object (versions_list : List VRec) (i : Nat)
    (v prev_ver : VRec)
    (hv : versions_list[i]? = Option.some v)
    (hnext : versions_list[i + 1]? = Option.some prev_ver)
    (hch : v.action_flag = CHANGE)
    (hdiff : v.object_id ≠ prev_ver.object_id ∨
      v.content_type_id ≠ prev_ver.content_type_id) :
    resolve_prev versions_list v i = (Option.none, "Add or Change") := by
  simp only [resolve_prev, if_pos hch, hnext]
  rw [if_pos hdiff]

/-- Witness for `c7_adjacent_different_object`: the CHANGE-flagged head of
`c7List` is adjacent to a version of a different object. -/
theorem c7_adjacent_witness :
    (c7List[0]? = Option.some ⟨1, 10, 2⟩ ∧
      c7List[0 + 1]? = Option.some ⟨2, 10, 2⟩ ∧
      (⟨1, 10, 2⟩ : VRec).action_flag = CHANGE ∧
      ((⟨1, 10, 2⟩ : VRec).object_id ≠ (⟨2, 10, 2⟩ : VRec).object_id ∨
        (⟨1, 10, 2⟩ : VRec).content_type_id ≠ (⟨2, 10, 2⟩ : VRec).content_type_id)) ∧
    resolve_prev c7List ⟨1, 10, 2⟩ 0 = (Option.none, "Add or Change") :=
  ⟨⟨by decide, by decide, by decide, Or.inl (by decide)⟩,
    c7_adjacent_different_object c7List 0 ⟨1, 10, 2⟩ ⟨2, 10, 2⟩ (by decide)
      (by decide) (by decide) (Or.inl (by decide))⟩

/-- Overwriting a key makes it resolve to the new value. -/
theorem dlookup_dset_self (d : List (String × Int)) (k : String) (v : Int) :
    dlookup (dset d k v) k = Option.some v := by
  induction d with
  | nil => simp [dset, dlookup]
  | cons kv rest ih =>
    rcases kv with ⟨k1, v1⟩
    by_cases h : k1 = k
    · simp [dset, dlookup, h]
    · simp [dset, dlookup, h, ih]

/-- Overwriting one key leaves the other keys unchanged. -/
theorem dlookup_dset_ne (d : List (String × Int)) (k k2 : String) (v : Int)
    (h : k2 ≠ k) : dlookup (dset d k v) k2 = dlookup d k2 := by
  have h2 : ¬ k = k2 := fun hc => h hc.symm
  induction d with
  | nil => simp [dset, dlookup, h2]
  | cons kv rest ih =>
    rcases kv with ⟨k1, v1⟩
    by_cases h1 : k1 = k
    · subst h1
      simp [dset, dlookup, h2]
    · simp [dset, dlookup, h1, ih]

/-- `dict.update` leaves keys that the update does not mention unchanged. -/
theorem dlookup_dictUpdate_not_mem (upd : List (String × Int))
    (d : List (String × Int)) (k : String) (h : ∀ p ∈ upd, p.1 ≠ k) :
    dlookup (dictUpdate d upd) k = dlookup d k := by
  induction upd generalizing d with
  | nil => rfl
  | cons kv rest ih =>
    rcases kv with ⟨k1, v1⟩
    have hk1 : k1 ≠ k := h (k1, v1) (List.mem_cons_self _ _)
    have hrest : ∀ p ∈ rest, p.1 ≠ k := fun p hp => h p (List.mem_cons_of_mem _ hp)
    show dlookup (dictUpdate (dset d k1 v1) rest) k = dlookup d k
    rw [ih (dset d k1 v1) hrest]
    exact dlookup_dset_ne d k1 k v1 (fun hc => hk1 hc.symm)

/-- `dict.update` makes every key the update mentions (with unique keys)
resolve to the updated value. -/
theorem dlookup_dictUpdate_of_mem (upd : List (String × Int))
    (d : List (String × Int)) (k : String) (v : Int)
    (hnd : (upd.map Prod.fst).Nodup) (h : dlookup upd k = Option.some v) :
    dlookup (dictUpdate d upd) k = Option.some v := by
  induction upd generalizing d with
  | nil => simp [dlookup] at h
  | cons kv rest ih =>
    rcases kv with ⟨k1, v1⟩
    rcases List.nodup_cons.mp hnd with ⟨hk1, hndrest⟩
    by_cases hkk : k1 = k
    · subst hkk
      have hv : v1 = v := by
        simpa [dlookup] using h
      subst hv
      have hrest : ∀ p ∈ rest, p.1 ≠ k1 := by
        intro p hp hc
        have hmem : p.1 ∈ rest.map Prod.fst := List.mem_map_of_mem Prod.fst hp
        rw [hc] at hmem
        exact hk1 hmem
      show dlookup (dictUpdate (dset d k1 v1) rest) k1 = Option.some v1
      rw [dlookup_dictUpdate_not_mem rest (dset d k1 v1) k1 hrest]
      exact dlookup_dset_self d k1 v1
    · have hrest : dlookup rest k = Option.some v := by
        simpa [dlookup, hkk] using h
      exact ih (dset d k1 v1) hndrest hrest

/-- C8 amended: `get_object_version` sorts the fragments most-derived first,
takes the most-derived fragment as the base object and applies the remaining,
less-derived fragments onto it with `__dict__.update`, so on conflicting
field names the less-derived (ancestor) fragment wins — in whichever order
the two fragments arrive. -/
theorem c8_less_derived_wins (child parent : Frag) (k : String) (a b : Int)
    (hlt : parent.nparents < child.nparents)
    (hc : dlookup child.fields k = Option.some a)
    (hp : dlookup parent.fields k = Option.some b)
    (hnd : (parent.fields.map Prod.fst).Nodup) :
    mergedLookup [child, parent] k = Option.some b ∧
      mergedLookup [parent, child] k = Option.some b := by
  have h1 : parent.nparents ≤ child.nparents := le_of_lt hlt
  have h2 : ¬ child.nparents ≤ parent.nparents := not_le.mpr hlt
  constructor
  · simp only [mergedLookup, get_object_version, sortByParentsDesc, List.foldl,
      insertDesc, h1, if_true, dictUpdate]
    exact dlookup_dictUpdate_of_mem parent.fields child.fields k b hnd hp
  · simp only [mergedLookup, get_object_version, sortByParentsDesc, List.foldl,
      insertDesc, h2, if_false, dictUpdate]
    exact dlookup_dictUpdate_of_mem parent.fields child.fields k b hnd hp

/-- Witness for `c8_less_derived_wins` on the fragments of `c8Frags`. -/
theorem c8_less_derived_wins_witness :
    ((0 : Nat) < 1 ∧
      dlookup [("x", (1 : Int))] "x" = Option.some 1 ∧
      dlookup [("x", (2 : Int))] "x" = Option.some 2 ∧
      (([("x", (2 : Int))].map Prod.fst).Nodup)) ∧
    (mergedLookup [⟨1, [("x", 1)]⟩, ⟨0, [("x", 2)]⟩] "x" = Option.some 2 ∧
      mergedLookup [⟨0, [("x", 2)]⟩, ⟨1, [("x", 1)]⟩] "x" = Option.some 2) :=
  ⟨⟨by decide, by decide, by decide, by decide⟩,
    c8_less_derived_wins ⟨1, [("x", 1)]⟩ ⟨0, [("x", 2)]⟩ "x" 1 2 (by decide)
      (by decide) (by decide) (by decide)⟩

/-- A successful `add` never changes the nesting depth. -/
theorem add_ok_depth (w : World) (st st2 : RevisionState) (obj : Nat)
    (h : add w st obj = Except.ok st2) : st2.depth = st.depth := by
  unfold add at h
  by_cases ha : is_active st
  · rw [if_pos ha] at h
    by_cases hd : w.action obj = DELETION
    · rw [if_pos hd] at h
      have hfoll : (follow_relationships w [obj] (Option.some 1) false false).2 =
          Except.error (PyErr.nameError "result_dict") := rfl
      rw [hfoll] at h
      exact absurd h (by simp)
    · rw [if_neg hd] at h
      cases h
      rfl
  · rw [if_neg ha] at h
    exact absurd h (by simp)

/-- One API call never makes the nesting depth negative. -/
theorem step_depth_nonneg (w : World) (st : RevisionState) (op : Op)
    (h : 0 ≤ st.depth) : 0 ≤ (step w st op).depth := by
  cases op with
  | start =>
    show 0 ≤ st.depth + 1
    omega
  | end_ =>
    show 0 ≤ (end_ w st).1.depth
    unfold end_
    by_cases ha : is_active st
    · rw [if_pos ha]
      by_cases h0 : st.depth - 1 = 0
      · rw [if_pos h0]
        show (0 : Int) ≤ clearedState.depth
        simp [clearedState]
      · rw [if_neg h0]
        have hpos : 0 < st.depth := by
          simpa [is_active, decide_eq_true_eq] using ha
        show 0 ≤ st.depth - 1
        omega
    · rw [if_neg ha]
      exact h
  | add obj =>
    show 0 ≤ (((add w st obj).toOption).getD st).depth
    cases hres : add w st obj with
    | error e => simp [hres, Except.toOption, h]
    | ok st2 =>
      have := add_ok_depth w st st2 obj hres
      simp [hres, Except.toOption]
      omega
  | setUser u =>
    show 0 ≤ (((set_user st u).toOption).getD st).depth
    unfold set_user
    by_cases ha : is_active st
    · simp [ha, Except.toOption, h]
    · simp [ha, Except.toOption, h]
  | setComment c =>
    show 0 ≤ (((set_comment st c).toOption).getD st).depth
    unfold set_comment
    by_cases ha : is_active st
    · simp [ha, Except.toOption, h]
    · simp [ha, Except.toOption, h]
  | addMeta m =>
    show 0 ≤ (((add_meta st m).toOption).getD st).depth
    unfold add_meta
    by_cases ha : is_active st
    · simp [ha, Except.toOption, h]
    · simp [ha, Except.toOption, h]
  | invalidate =>
    show 0 ≤ (((invalidate st).toOption).getD st).depth
    unfold invalidate
    by_cases ha : is_active st
    · simp [ha, Except.toOption, h]
    · simp [ha, Except.toOption, h]

/-- A whole call sequence never makes the nesting depth negative. -/
theorem run_depth_nonneg (w : World) (ops : List Op) : 0 ≤ (run w ops).depth := by
  have key : ∀ (l : List Op) (st : RevisionState), 0 ≤ st.depth →
      0 ≤ (l.foldl (step w) st).depth := by
    intro l
    induction l with
    | nil => intro st h; simpa using h
    | cons op rest ih => intro st h; exact ih _ (step_depth_nonneg w st op h)
  exact key ops clearedState (by simp [clearedState])

/-- C10: for every sequence of start/end/add/setUser/setComment/addMeta/
invalidate calls the nesting depth stays non-negative, and `end()` on a state
with depth 0 raises the not-in-scope `RevisionManagementError` before
decrementing the depth and before any commit work (the state is unchanged and
nothing is persisted). -/
theorem c10_depth_invariant (w : World) (ops : List Op) :
    0 ≤ (run w ops).depth ∧
      ∀ st : RevisionState, st.depth = 0 →
        end_ w st = (st, emptyLog, Option.some PyErr.revisionManagementError) := by
  refine ⟨run_depth_nonneg w ops, ?_⟩
  intro st h
  have hact : is_active st = false := by simp [is_active, h]
  simp [end_, hact]

/-- Witness for `c10_depth_invariant`: the balanced sequence start-end keeps
depth at 0, and `end()` on the initial state raises without committing. -/
theorem c10_depth_invariant_witness :
    0 ≤ (run wTest [Op.start, Op.end_]).depth ∧
      end_ wTest clearedState =
        (clearedState, emptyLog, Option.some PyErr.revisionManagementError) :=
  ⟨(c10_depth_invariant wTest [Op.start, Op.end_]).1,
    (c10_depth_invariant wTest [Op.start, Op.end_]).2 clearedState rfl⟩

end Reversion
